import Mathlib

/-
Verification of the soft-body blob physics engine (Verlet spring-mass +
pressure) of the claude-usage-widget companion.

The TypeScript source is embedded shallowly over the rationals.  The three
irrational or nondeterministic primitives of the source — Math.sqrt,
Math.sin and Math.random — are abstracted as an explicit environment
(structure Env) of rational-valued functions that is threaded through the
step; every theorem quantifies over the environment unless the property
genuinely depends on the square root being exact, in which case the
exactness at the relevant argument is an explicit hypothesis.

Mutable JS arrays are modelled by lists with functional update, preserving
the source's sequential mutation order (springs mutate two cells in
sequence; the pressure loop reads already-mutated neighbours).  The source
loop `for i < NODE_COUNT` in the Verlet integration is modelled as a map
over the node list; theorems about the whole step therefore carry the
node-count invariant (14 nodes) under which the two coincide.
-/

-- ── Data model (physics.ts) ──────────────────────────────────────────────

structure MonitorRect where
  x : ℚ
  y : ℚ
  width : ℚ
  height : ℚ
  deriving DecidableEq, Repr, Inhabited

structure WindowRect where
  x : ℚ
  y : ℚ
  width : ℚ
  height : ℚ
  deriving DecidableEq, Repr, Inhabited

structure BlobNode where
  x : ℚ
  y : ℚ
  ox : ℚ
  oy : ℚ
  deriving DecidableEq, Repr, Inhabited

structure BlobSpring where
  a : ℕ
  b : ℕ
  restLength : ℚ
  stiffness : ℚ
  deriving DecidableEq, Repr, Inhabited

inductive MoveState where
  | IDLE
  | WALKING
  | FLOATING
  | DRAGGING
  | FREE
  deriving DecidableEq, Repr, Inhabited

inductive WalkEdge where
  | top
  | bottom
  | left
  | right
  deriving DecidableEq, Repr, Inhabited

structure BlobState where
  nodes : List BlobNode
  springs : List BlobSpring
  cx : ℚ
  cy : ℚ
  radius : ℚ
  moveState : MoveState
  dragX : ℚ
  dragY : ℚ
  prevDragX : ℚ
  prevDragY : ℚ
  grabNodeIdx : ℕ
  grabOffsetX : ℚ
  grabOffsetY : ℚ
  walkDir : ℚ
  walkEdge : WalkEdge
  walkSpeed : ℚ
  targetX : ℚ
  targetY : ℚ
  floatTimer : ℚ
  targetPressure : ℚ
  breathPhase : ℚ
  windows : List WindowRect
  deriving DecidableEq, Repr, Inhabited

/-- Environment of numeric primitives of the source that are not rational
functions: Math.sqrt, Math.sin, and the stream of Math.random draws. -/
structure Env where
  sqrt : ℚ → ℚ
  sin : ℚ → ℚ
  rand : ℕ → ℚ

-- ── Constants (physics.ts lines 70-87) ───────────────────────────────────

def NODE_COUNT : ℕ := 14
def DAMPING : ℚ := 91/100
def PRESSURE_STRENGTH : ℚ := 18
def GRAVITY : ℚ := 120
def FLOAT_SPEED : ℚ := 80
def FLOAT_DELAY : ℚ := 5
def BREATH_SPEED : ℚ := 5/2
def BREATH_AMOUNT : ℚ := 2/25
def BOUNCE_DECAY : ℚ := 3/10
def MAX_VELOCITY : ℚ := 600
def MAX_VELOCITY_FREE : ℚ := 6000
def REST_THRESHOLD : ℚ := 3/2
def ADHESION_STRENGTH : ℚ := 3/25
def ATTRACT_RANGE : ℚ := 180
def ATTRACT_STRENGTH : ℚ := 2/5
def STICK_RADIUS : ℚ := 3

-- ── Helpers ──────────────────────────────────────────────────────────────

/-- getKineticEnergy: mean squared implicit per-node displacement. -/
def getKineticEnergy (state : BlobState) : ℚ :=
  (state.nodes.foldl
    (fun e n => e + (n.x - n.ox) * (n.x - n.ox) + (n.y - n.oy) * (n.y - n.oy)) 0)
    / (NODE_COUNT : ℚ)

/-- updateCentroid: mean node position, divided by the constant NODE_COUNT
exactly as the source does. -/
def updateCentroid (state : BlobState) : BlobState :=
  let sx := state.nodes.foldl (fun s n => s + n.x) 0
  let sy := state.nodes.foldl (fun s n => s + n.y) 0
  { state with cx := sx / (NODE_COUNT : ℚ), cy := sy / (NODE_COUNT : ℚ) }

/-- Squared distance from a point to the nearest point of a rectangle,
the quantity minimised by nearestWindow and findNearestMonitor. -/
def rectDistSq (x y rx ry rw rh : ℚ) : ℚ :=
  let cx := max rx (min x (rx + rw))
  let cy := max ry (min y (ry + rh))
  (cx - x) * (cx - x) + (cy - y) * (cy - y)

/-- nearestWindow: the window whose rectangle is closest to the blob
centroid, none when no windows are known.  The fold mirrors the source
loop: the first window always replaces the infinite initial distance, and
later windows win only on a strictly smaller distance. -/
def nearestWindow (state : BlobState) : Option WindowRect :=
  (state.windows.foldl
    (fun acc w =>
      let d := rectDistSq state.cx state.cy w.x w.y w.width w.height
      match acc with
      | none => some (w, d)
      | some (bw, bd) => if d < bd then some (w, d) else some (bw, bd))
    none).map Prod.fst

/-- The guard `Math.sqrt(dx*dx + dy*dy) || 0.001` of relaxSpring and of the
cursor-stick constraint: substitute a small epsilon for a zero distance. -/
def safeDist (env : Env) (dx dy : ℚ) : ℚ :=
  let s := env.sqrt (dx * dx + dy * dy)
  if s = 0 then 1/1000 else s

/-- relaxSpring: pull/push the two endpoint nodes of one spring toward its
rest length.  The second write reads the list after the first write, which
reproduces the source's aliasing when the two indices coincide. -/
def relaxSpring (env : Env) (nodes : List BlobNode) (spring : BlobSpring) :
    List BlobNode :=
  let a := nodes.getD spring.a default
  let b := nodes.getD spring.b default
  let dx := b.x - a.x
  let dy := b.y - a.y
  let d := safeDist env dx dy
  let diff := (d - spring.restLength) / d
  let move := diff * spring.stiffness * (1/2)
  let mx := dx * move
  let my := dy * move
  let nodes1 := nodes.set spring.a { a with x := a.x + mx, y := a.y + my }
  let b1 := nodes1.getD spring.b default
  nodes1.set spring.b { b1 with x := b1.x - mx, y := b1.y - my }

/-- polygonArea: shoelace area of the node ring. -/
def polygonArea (nodes : List BlobNode) : ℚ :=
  let n := nodes.length
  |((List.range n).foldl
    (fun area i =>
      let j := (i + 1) % n
      let ni := nodes.getD i default
      let nj := nodes.getD j default
      area + ni.x * nj.y - nj.x * ni.y) 0)| / 2

/-- The guard `polygonArea(state.nodes) || 1` of applyPressure: substitute
one for a zero area. -/
def areaOrOne (nodes : List BlobNode) : ℚ :=
  let a := polygonArea nodes
  if a = 0 then 1 else a

/-- applyPressure: push every node outward along its local normal.  The
loop mutates the array it is reading, so neighbours already visited are
read in their displaced position; the fold reproduces that order. -/
def applyPressure (state : BlobState) (pressure : ℚ) : BlobState :=
  let area := areaOrOne state.nodes
  let force := PRESSURE_STRENGTH * pressure / area
  let n := state.nodes.length
  { state with
    nodes := (List.range n).foldl
      (fun ns i =>
        let prev := ns.getD ((i + n - 1) % n) default
        let next := ns.getD ((i + 1) % n) default
        let ex := next.x - prev.x
        let ey := next.y - prev.y
        let nx := -ey * force
        let ny := ex * force
        let cur := ns.getD i default
        ns.set i { cur with x := cur.x + nx, y := cur.y + ny })
      state.nodes }

-- ── Collision resolvers ──────────────────────────────────────────────────

/-- The horizontal half of the reflect-and-clamp rule shared by
constrainToBounds and the centroid-inside mode of constrainWindowWalls. -/
def clampNodeX (left right : ℚ) (n : BlobNode) : BlobNode :=
  if n.x < left then
    let vx := n.x - n.ox
    { n with x := left, ox := min right (left - vx * BOUNCE_DECAY) }
  else if n.x > right then
    let vx := n.x - n.ox
    { n with x := right, ox := max left (right - vx * BOUNCE_DECAY) }
  else n

/-- The vertical half of the reflect-and-clamp rule. -/
def clampNodeY (top bottom : ℚ) (n : BlobNode) : BlobNode :=
  if n.y < top then
    let vy := n.y - n.oy
    { n with y := top, oy := min bottom (top - vy * BOUNCE_DECAY) }
  else if n.y > bottom then
    let vy := n.y - n.oy
    { n with y := bottom, oy := max top (bottom - vy * BOUNCE_DECAY) }
  else n

/-- Per-node body of constrainToBounds and of the inside mode of
constrainWindowWalls: the two axis clamps in source order. -/
def clampNodeRect (left right top bottom : ℚ) (n : BlobNode) : BlobNode :=
  clampNodeY top bottom (clampNodeX left right n)

/-- constrainToBounds: keep every node inside the monitor. -/
def constrainToBounds (state : BlobState) (monitor : MonitorRect) : BlobState :=
  { state with
    nodes := state.nodes.map
      (clampNodeRect monitor.x (monitor.x + monitor.width)
        monitor.y (monitor.y + monitor.height)) }

/-- Per-node body of the centroid-outside mode of constrainWindowWalls:
a node strictly inside the window is snapped to its nearest face with the
normal velocity reflected and scaled by BOUNCE_DECAY. -/
def resolveOutsideWindow (win : WindowRect) (n : BlobNode) : BlobNode :=
  let left := win.x
  let right := win.x + win.width
  let top := win.y
  let bottom := win.y + win.height
  if n.x ≤ left ∨ n.x ≥ right ∨ n.y ≤ top ∨ n.y ≥ bottom then n
  else
    let dL := n.x - left
    let dR := right - n.x
    let dT := n.y - top
    let dB := bottom - n.y
    let minD := min (min dL dR) (min dT dB)
    if minD = dT then
      let vy := n.y - n.oy
      { n with y := top, oy := top + vy * BOUNCE_DECAY }
    else if minD = dB then
      let vy := n.y - n.oy
      { n with y := bottom, oy := bottom + vy * BOUNCE_DECAY }
    else if minD = dL then
      let vx := n.x - n.ox
      { n with x := left, ox := left + vx * BOUNCE_DECAY }
    else
      let vx := n.x - n.ox
      { n with x := right, ox := right + vx * BOUNCE_DECAY }

/-- constrainWindowWalls: window edges are solid from both sides; the
containment mode of each window is decided by the cached centroid, which
the source does not recompute during the loop. -/
def constrainWindowWalls (state : BlobState) : BlobState :=
  { state with
    nodes := state.windows.foldl
      (fun ns win =>
        let left := win.x
        let right := win.x + win.width
        let top := win.y
        let bottom := win.y + win.height
        if state.cx > left ∧ state.cx < right ∧
            state.cy > top ∧ state.cy < bottom then
          ns.map (clampNodeRect left right top bottom)
        else
          ns.map (resolveOutsideWindow win))
      state.nodes }

/-- hardClampToMonitor: clamp a node and its old position into the monitor,
but only when the current position is outside. -/
def hardClampToMonitor (state : BlobState) (monitor : MonitorRect) : BlobState :=
  let left := monitor.x
  let right := monitor.x + monitor.width
  let top := monitor.y
  let bottom := monitor.y + monitor.height
  { state with
    nodes := state.nodes.map
      (fun n =>
        if n.x < left ∨ n.x > right ∨ n.y < top ∨ n.y > bottom then
          { x := max left (min n.x right), y := max top (min n.y bottom),
            ox := max left (min n.ox right), oy := max top (min n.oy bottom) }
        else n) }

-- ── Behavior force generators ────────────────────────────────────────────

/-- applyEdgeAdhesion: nudge the whole body (positions and previous
positions together) a fraction of the way toward a target just outside the
tracked edge of the nearest window. -/
def applyEdgeAdhesion (state : BlobState) : BlobState :=
  match nearestWindow state with
  | none => state
  | some win =>
    let r := state.radius
    let target : ℚ × ℚ :=
      match state.walkEdge with
      | .top =>
        (max (win.x + r) (min state.cx (win.x + win.width - r)),
          win.y - r * (6/10))
      | .bottom =>
        (max (win.x + r) (min state.cx (win.x + win.width - r)),
          win.y + win.height + r * (6/10))
      | .left =>
        (win.x - r * (6/10),
          max (win.y + r) (min state.cy (win.y + win.height - r)))
      | .right =>
        (win.x + win.width + r * (6/10),
          max (win.y + r) (min state.cy (win.y + win.height - r)))
    let dx := (target.1 - state.cx) * ADHESION_STRENGTH
    let dy := (target.2 - state.cy) * ADHESION_STRENGTH
    { state with
      nodes := state.nodes.map
        (fun n => { x := n.x + dx, y := n.y + dy,
                    ox := n.ox + dx, oy := n.oy + dy }) }

/-- applyWindowAttraction: all windows gently pull the blob toward their
nearest point, with linear falloff inside the attraction range. -/
def applyWindowAttraction (env : Env) (state : BlobState) (dt : ℚ) : BlobState :=
  let f := state.windows.foldl
    (fun (acc : ℚ × ℚ) win =>
      let nx := max win.x (min state.cx (win.x + win.width))
      let ny := max win.y (min state.cy (win.y + win.height))
      let dx := nx - state.cx
      let dy := ny - state.cy
      let dist := env.sqrt (dx * dx + dy * dy)
      if dist < 1 ∨ dist > ATTRACT_RANGE then acc
      else
        let strength := ATTRACT_STRENGTH * (1 - dist / ATTRACT_RANGE) * dt
        (acc.1 + dx / dist * strength, acc.2 + dy / dist * strength))
    (0, 0)
  if f.1 = 0 ∧ f.2 = 0 then state
  else
    { state with
      nodes := state.nodes.map
        (fun n => { n with x := n.x + f.1, y := n.y + f.2 }) }

/-- applyDragForces: elastic centroid follow toward the cursor, ramped by
cursor speed, resetting the previous drag point. -/
def applyDragForces (env : Env) (state : BlobState) : BlobState :=
  let targetCx := state.dragX - state.grabOffsetX
  let targetCy := state.dragY - state.grabOffsetY
  let cursorDx := state.dragX - state.prevDragX
  let cursorDy := state.dragY - state.prevDragY
  let cursorSpeed := env.sqrt (cursorDx * cursorDx + cursorDy * cursorDy)
  let state := { state with prevDragX := state.dragX, prevDragY := state.dragY }
  let followStrength := min (cursorSpeed / 5) 1 * (12/100)
  let dx := (targetCx - state.cx) * followStrength
  let dy := (targetCy - state.cy) * followStrength
  { state with
    nodes := state.nodes.map
      (fun n => { n with x := n.x + dx, y := n.y + dy }) }

/-- applyCursorStickConstraint: the cursor defines a minimum distance from
the centroid in its angular direction; nodes in that cone are pushed out. -/
def applyCursorStickConstraint (env : Env) (state : BlobState) : BlobState :=
  let cx := state.cx
  let cy := state.cy
  let relX := state.dragX - cx
  let relY := state.dragY - cy
  let cursorDist := env.sqrt (relX * relX + relY * relY)
  if cursorDist < 1 then state
  else
    let cursorDirX := relX / cursorDist
    let cursorDirY := relY / cursorDist
    { state with
      nodes := state.nodes.map
        (fun n =>
          let ndx := n.x - cx
          let ndy := n.y - cy
          let nd := safeDist env ndx ndy
          let nodeDirX := ndx / nd
          let nodeDirY := ndy / nd
          let dot := nodeDirX * cursorDirX + nodeDirY * cursorDirY
          if dot ≤ 0 then n
          else
            let angular := dot * dot * dot * dot * dot
            let minDist := (cursorDist + STICK_RADIUS) * angular
            if nd < minDist then
              let push := (minDist - nd) * (8/10)
              { n with x := n.x + nodeDirX * push, y := n.y + nodeDirY * push }
            else n) }

/-- Translate all nodes (and their old positions) horizontally: the body
of the top/bottom walking branch. -/
def shiftNodesX (state : BlobState) (d : ℚ) : BlobState :=
  { state with
    nodes := state.nodes.map (fun n => { n with x := n.x + d, ox := n.ox + d }) }

/-- Translate all nodes (and their old positions) vertically: the body of
the left/right walking branch. -/
def shiftNodesY (state : BlobState) (d : ℚ) : BlobState :=
  { state with
    nodes := state.nodes.map (fun n => { n with y := n.y + d, oy := n.oy + d }) }

/-- applyWalkForces: constant-speed translation along the tracked edge of
the nearest window, with the corner transition table, and a small random
chance of returning to idle. -/
def applyWalkForces (env : Env) (state : BlobState) (dt : ℚ) : BlobState :=
  match nearestWindow state with
  | none => { state with moveState := .IDLE }
  | some win =>
    let speed := state.walkSpeed * state.walkDir * dt
    let prevEdge := state.walkEdge
    let state :=
      match prevEdge with
      | .top | .bottom =>
        let s := updateCentroid (shiftNodesX state speed)
        if s.cx < win.x + s.radius then
          { s with walkEdge := .left,
                   walkDir := if prevEdge = .top then 1 else -1 }
        else if s.cx > win.x + win.width - s.radius then
          { s with walkEdge := .right,
                   walkDir := if prevEdge = .top then -1 else 1 }
        else s
      | .left | .right =>
        let s := updateCentroid (shiftNodesY state speed)
        if s.cy < win.y + s.radius then
          { s with walkEdge := .top,
                   walkDir := if prevEdge = .left then 1 else -1 }
        else if s.cy > win.y + win.height - s.radius then
          { s with walkEdge := .bottom,
                   walkDir := if prevEdge = .left then -1 else 1 }
        else s
    if env.rand 0 < 2/1000 then { state with moveState := .IDLE } else state

/-- applyFloatForces: move the whole body toward the float target at
constant speed, clamped so it cannot overshoot within one tick. -/
def applyFloatForces (env : Env) (state : BlobState) (dt : ℚ) : BlobState :=
  let dx := state.targetX - state.cx
  let dy := state.targetY - state.cy
  let d := let s := env.sqrt (dx * dx + dy * dy); if s = 0 then 1 else s
  let speed := min (FLOAT_SPEED * dt) d
  let mx := dx / d * speed
  let my := dy / d * speed
  { state with
    nodes := state.nodes.map
      (fun n => { x := n.x + mx, y := n.y + my,
                  ox := n.ox + mx, oy := n.oy + my }) }

/-- computeFloatTarget: pick the nearest of four candidate points just
outside the edges of the nearest window, clamped along the edge span. -/
def computeFloatTarget (state : BlobState) : BlobState :=
  match nearestWindow state with
  | none => state
  | some win =>
    let cx := state.cx
    let cy := state.cy
    let r := state.radius
    let clampX := fun (x : ℚ) => max (win.x + r) (min x (win.x + win.width - r))
    let clampY := fun (y : ℚ) => max (win.y + r) (min y (win.y + win.height - r))
    let candidates : List (ℚ × ℚ × WalkEdge) :=
      [(clampX cx, win.y - r, .top),
       (clampX cx, win.y + win.height + r, .bottom),
       (win.x - r, clampY cy, .left),
       (win.x + win.width + r, clampY cy, .right)]
    let best := (candidates.foldl
      (fun acc c =>
        let d := (c.1 - cx) * (c.1 - cx) + (c.2.1 - cy) * (c.2.1 - cy)
        match acc with
        | none => some (c, d)
        | some (bc, bd) => if d < bd then some (c, d) else some (bc, bd))
      none).map Prod.fst
    match best with
    | none => state
    | some c => { state with targetX := c.1, targetY := c.2.1, walkEdge := c.2.2 }

/-- snapToEdge: translate the whole body flush against the tracked edge of
the nearest window and recompute the centroid. -/
def snapToEdge (state : BlobState) : BlobState :=
  match nearestWindow state with
  | none => state
  | some win =>
    let r := state.radius
    let target : ℚ × ℚ :=
      match state.walkEdge with
      | .top => (state.cx, win.y - r * (6/10))
      | .bottom => (state.cx, win.y + win.height + r * (6/10))
      | .left => (win.x - r * (6/10), state.cy)
      | .right => (win.x + win.width + r * (6/10), state.cy)
    let dx := target.1 - state.cx
    let dy := target.2 - state.cy
    updateCentroid
      { state with
        nodes := state.nodes.map
          (fun n => { x := n.x + dx, y := n.y + dy,
                      ox := n.ox + dx, oy := n.oy + dy }) }

-- ── Monitor resolution ───────────────────────────────────────────────────

/-- findContainingMonitor: first monitor containing the point. -/
def findContainingMonitor (x y : ℚ) (monitors : List MonitorRect) :
    Option MonitorRect :=
  monitors.find? (fun m =>
    x ≥ m.x ∧ x < m.x + m.width ∧ y ≥ m.y ∧ y < m.y + m.height)

/-- findNearestMonitor: monitor whose rectangle is closest to the point;
the fold mirrors the source loop starting from an infinite best distance. -/
def findNearestMonitor (x y : ℚ) (monitors : List MonitorRect) : MonitorRect :=
  ((monitors.foldl
    (fun acc m =>
      let d := rectDistSq x y m.x m.y m.width m.height
      match acc with
      | none => some (m, d)
      | some (bm, bd) => if d < bd then some (m, d) else some (bm, bd))
    none).map Prod.fst).getD (monitors.getD 0 default)

/-- The `findContainingMonitor ?? findNearestMonitor` resolution of the
step (stepBlob lines 229-231). -/
def resolveMonitor (x y : ℚ) (monitors : List MonitorRect) : MonitorRect :=
  (findContainingMonitor x y monitors).getD (findNearestMonitor x y monitors)

-- ── Drag lifecycle ───────────────────────────────────────────────────────

/-- updateDrag: record the new pointer position, remembering the old one. -/
def updateDrag (state : BlobState) (mx my : ℚ) : BlobState :=
  { state with
    prevDragX := state.dragX, prevDragY := state.dragY,
    dragX := mx, dragY := my }

/-- endDrag: impart the capped last pointer displacement to every node as
an instantaneous velocity and transition to FREE with a cooldown. -/
def endDrag (env : Env) (state : BlobState) : BlobState :=
  let throwVx := (state.dragX - state.prevDragX) * 8
  let throwVy := (state.dragY - state.prevDragY) * 8
  let throwSpeed := env.sqrt (throwVx * throwVx + throwVy * throwVy)
  let maxThrow : ℚ := 120
  let throwV : ℚ × ℚ :=
    if throwSpeed > maxThrow then
      let scale := maxThrow / throwSpeed
      (throwVx * scale, throwVy * scale)
    else (throwVx, throwVy)
  { state with
    nodes := state.nodes.map
      (fun n => { n with ox := n.x - throwV.1, oy := n.y - throwV.2 }),
    moveState := .FREE,
    floatTimer := FLOAT_DELAY }

-- ── Main step ────────────────────────────────────────────────────────────

/-- The movement-state switch of stepBlob (lines 169-193). -/
def moveStateSwitch (env : Env) (state : BlobState) (dt : ℚ) : BlobState :=
  match state.moveState with
  | .DRAGGING => applyDragForces env state
  | .FREE =>
    let s := { state with floatTimer := state.floatTimer - dt }
    if s.floatTimer ≤ 0 ∧ getKineticEnergy s < REST_THRESHOLD then
      computeFloatTarget { s with moveState := .FLOATING, floatTimer := 0 }
    else s
  | .FLOATING => applyFloatForces env state dt
  | .WALKING => applyWalkForces env state dt
  | .IDLE =>
    if state.windows ≠ [] ∧ env.rand 0 < 3/1000 then
      { state with moveState := .WALKING,
                   walkDir := if env.rand 1 < 1/2 then 1 else -1 }
    else state

/-- The Verlet integration loop of stepBlob (lines 206-225), as a map over
the node list (the source iterates the first NODE_COUNT indices). -/
def verletIntegrate (env : Env) (clinging : Bool) (state : BlobState)
    (dt : ℚ) : BlobState :=
  let cap := if state.moveState = .FREE then MAX_VELOCITY_FREE else MAX_VELOCITY
  { state with
    nodes := state.nodes.map
      (fun n =>
        let vx := (n.x - n.ox) * DAMPING
        let vy := (n.y - n.oy) * DAMPING
        let speed := env.sqrt (vx * vx + vy * vy)
        let v : ℚ × ℚ :=
          if speed > cap * dt then
            let scale := cap * dt / speed
            (vx * scale, vy * scale)
          else (vx, vy)
        { x := n.x + v.1,
          y := n.y + v.2 + (if clinging then 0 else GRAVITY * dt * dt),
          ox := n.x, oy := n.y })}

/-- The breathing modulation of the step, computed from the advanced
breathing phase. -/
def breathModOf (env : Env) (state : BlobState) (dt : ℚ) : ℚ :=
  1 + env.sin (state.breathPhase + BREATH_SPEED * dt) * BREATH_AMOUNT

/-- One constraint-relaxation iteration of stepBlob (lines 233-244). -/
def constraintPass (env : Env) (breathMod : ℚ) (monitor : MonitorRect)
    (state : BlobState) : BlobState :=
  let state := { state with nodes := state.springs.foldl (relaxSpring env) state.nodes }
  let state := applyPressure state (state.targetPressure * breathMod)
  let state :=
    if state.moveState = .DRAGGING then applyCursorStickConstraint env state
    else state
  let state := constrainWindowWalls state
  constrainToBounds state monitor

/-- The floating-arrival check at the end of stepBlob (lines 252-259). -/
def floatArrival (env : Env) (state : BlobState) : BlobState :=
  if state.moveState = .FLOATING then
    let dx := state.targetX - state.cx
    let dy := state.targetY - state.cy
    if env.sqrt (dx * dx + dy * dy) < 8 then
      snapToEdge { state with moveState := .IDLE }
    else state
  else state

/-- The prefix of stepBlob up to the first centroid recomputation (lines
158-228): dt clamp, breathing phase, behaviour switch, adhesion or
attraction, Verlet integration, centroid. -/
def stepPre (env : Env) (state : BlobState) (dt : ℚ) : BlobState :=
  let dt := min dt (1/20)
  let state := { state with breathPhase := state.breathPhase + BREATH_SPEED * dt }
  let clinging :=
    (state.moveState = .WALKING ∨ state.moveState = .IDLE) ∧ state.windows ≠ []
  let state := moveStateSwitch env state dt
  let state := if clinging then applyEdgeAdhesion state else state
  let state :=
    if ¬clinging ∧ state.moveState ≠ .DRAGGING then
      applyWindowAttraction env state dt
    else state
  let state := verletIntegrate env (decide clinging) state dt
  updateCentroid state

/-- The suffix of stepBlob after monitor resolution (lines 233-259): two
constraint iterations, the hard clamp, the centroid recomputation, and the
floating-arrival check. -/
def stepPost (env : Env) (breathMod : ℚ) (monitor : MonitorRect)
    (state : BlobState) : BlobState :=
  floatArrival env
    (updateCentroid
      (hardClampToMonitor
        (constraintPass env breathMod monitor
          (constraintPass env breathMod monitor state)) monitor))

/-- stepBlob: one full physics tick. -/
def stepBlob (env : Env) (state : BlobState) (dt : ℚ)
    (monitors : List MonitorRect) : BlobState :=
  match monitors with
  | [] => state
  | _ =>
    let s := stepPre env state dt
    stepPost env (breathModOf env state dt) (resolveMonitor s.cx s.cy monitors) s

-- ── Concrete instances for counterexamples and witnesses ─────────────────

/-- Square-root lookup table for the concrete environment: each entry
pairs an argument with its exact nonneg rational square root, so the
concrete environment agrees with the real square root at every argument
it is invoked on in the concrete evaluations below. -/
def sqrtTable : List (ℚ × ℚ) :=
  [(0, 0), (405769/4, 637/2), (2500, 50), (160000, 400)]

/-- The table-based exact square root (0 off the table). -/
def tableSqrt (q : ℚ) : ℚ :=
  (((sqrtTable.find? (fun p => p.1 = q)).map Prod.snd).getD 0)

/-- Concrete environment: exact table square root, zero sine (only ever
multiplied into vanishing pressure displacements in the concrete states
below), constant one-half random stream. -/
def envC : Env := ⟨tableSqrt, fun _ => 0, fun _ => 1/2⟩

/-- A blob state with every bookkeeping field at a neutral value. -/
def baseState : BlobState :=
  { nodes := [], springs := [], cx := 0, cy := 0, radius := 28,
    moveState := .IDLE, dragX := 0, dragY := 0, prevDragX := 0,
    prevDragY := 0, grabNodeIdx := 0, grabOffsetX := 0, grabOffsetY := 0,
    walkDir := 1, walkEdge := .top, walkSpeed := 50, targetX := 0,
    targetY := 0, floatTimer := 0, targetPressure := 1, breathPhase := 0,
    windows := [] }

/-- The ring of edge springs over 14 nodes. -/
def ringSprings : List BlobSpring :=
  (List.range NODE_COUNT).map (fun i => ⟨i, (i + 1) % NODE_COUNT, 12, 1/10⟩)

/-- The 1000 x 1000 monitor at the origin. -/
def m1000 : MonitorRect := ⟨0, 0, 1000, 1000⟩

/-- C1 counterexample state: a thrown body whose nodes sit right of the
monitor with a large leftward implicit velocity. -/
def c1State : BlobState :=
  { baseState with
    nodes := List.replicate NODE_COUNT ⟨1200, 500, 1550, 500⟩
    springs := ringSprings
    cx := 1200
    cy := 500
    moveState := .FREE
    floatTimer := 100 }

/-- C3 counterexample state: a resting FREE body with an elapsed cooldown,
no windows, and a stale float target 50 pixels away. -/
def c3State : BlobState :=
  { baseState with
    nodes := List.replicate NODE_COUNT ⟨500, 500, 500, 500⟩
    springs := ringSprings
    cx := 500
    cy := 500
    moveState := .FREE
    floatTimer := 0
    targetX := 530
    targetY := 5403/10 }

/-- The 100 x 100 window at the origin. -/
def w100 : WindowRect := ⟨0, 0, 100, 100⟩

/-- C4 state: walking rightward along the top edge of the window, about to
pass the right extent minus the body radius. -/
def c4State : BlobState :=
  { baseState with
    nodes := List.replicate NODE_COUNT ⟨95, -6, 95, -6⟩
    springs := ringSprings
    cx := 95
    cy := -6
    radius := 10
    moveState := .WALKING
    walkEdge := .top
    walkDir := 1
    windows := [w100] }

-- ── Field-preservation lemmas ────────────────────────────────────────────

@[simp] lemma windows_updateCentroid (s : BlobState) :
    (updateCentroid s).windows = s.windows := rfl

@[simp] lemma nodes_updateCentroid (s : BlobState) :
    (updateCentroid s).nodes = s.nodes := rfl

@[simp] lemma moveState_updateCentroid (s : BlobState) :
    (updateCentroid s).moveState = s.moveState := rfl

@[simp] lemma radius_updateCentroid (s : BlobState) :
    (updateCentroid s).radius = s.radius := rfl

@[simp] lemma walkSpeed_updateCentroid (s : BlobState) :
    (updateCentroid s).walkSpeed = s.walkSpeed := rfl

@[simp] lemma walkDir_updateCentroid (s : BlobState) :
    (updateCentroid s).walkDir = s.walkDir := rfl

@[simp] lemma walkEdge_updateCentroid (s : BlobState) :
    (updateCentroid s).walkEdge = s.walkEdge := rfl

@[simp] lemma windows_shiftNodesX (s : BlobState) (d : ℚ) :
    (shiftNodesX s d).windows = s.windows := rfl

@[simp] lemma windows_shiftNodesY (s : BlobState) (d : ℚ) :
    (shiftNodesY s d).windows = s.windows := rfl

@[simp] lemma radius_shiftNodesX (s : BlobState) (d : ℚ) :
    (shiftNodesX s d).radius = s.radius := rfl

@[simp] lemma radius_shiftNodesY (s : BlobState) (d : ℚ) :
    (shiftNodesY s d).radius = s.radius := rfl

@[simp] lemma walkSpeed_shiftNodesX (s : BlobState) (d : ℚ) :
    (shiftNodesX s d).walkSpeed = s.walkSpeed := rfl

@[simp] lemma walkSpeed_shiftNodesY (s : BlobState) (d : ℚ) :
    (shiftNodesY s d).walkSpeed = s.walkSpeed := rfl

@[simp] lemma moveState_shiftNodesX (s : BlobState) (d : ℚ) :
    (shiftNodesX s d).moveState = s.moveState := rfl

@[simp] lemma moveState_shiftNodesY (s : BlobState) (d : ℚ) :
    (shiftNodesY s d).moveState = s.moveState := rfl

@[simp] lemma windows_verletIntegrate (env : Env) (c : Bool) (s : BlobState)
    (dt : ℚ) : (verletIntegrate env c s dt).windows = s.windows := rfl

@[simp] lemma moveState_verletIntegrate (env : Env) (c : Bool) (s : BlobState)
    (dt : ℚ) : (verletIntegrate env c s dt).moveState = s.moveState := rfl

@[simp] lemma windows_applyPressure (s : BlobState) (p : ℚ) :
    (applyPressure s p).windows = s.windows := rfl

@[simp] lemma moveState_applyPressure (s : BlobState) (p : ℚ) :
    (applyPressure s p).moveState = s.moveState := rfl

@[simp] lemma windows_constrainToBounds (s : BlobState) (m : MonitorRect) :
    (constrainToBounds s m).windows = s.windows := rfl

@[simp] lemma moveState_constrainToBounds (s : BlobState) (m : MonitorRect) :
    (constrainToBounds s m).moveState = s.moveState := rfl

@[simp] lemma windows_constrainWindowWalls (s : BlobState) :
    (constrainWindowWalls s).windows = s.windows := rfl

@[simp] lemma moveState_constrainWindowWalls (s : BlobState) :
    (constrainWindowWalls s).moveState = s.moveState := rfl

@[simp] lemma windows_hardClampToMonitor (s : BlobState) (m : MonitorRect) :
    (hardClampToMonitor s m).windows = s.windows := rfl

@[simp] lemma moveState_hardClampToMonitor (s : BlobState) (m : MonitorRect) :
    (hardClampToMonitor s m).moveState = s.moveState := rfl

@[simp] lemma windows_applyCursorStickConstraint (env : Env) (s : BlobState) :
    (applyCursorStickConstraint env s).windows = s.windows := by
  unfold applyCursorStickConstraint
  dsimp only
  split_ifs <;> rfl

@[simp] lemma moveState_applyCursorStickConstraint (env : Env) (s : BlobState) :
    (applyCursorStickConstraint env s).moveState = s.moveState := by
  unfold applyCursorStickConstraint
  dsimp only
  split_ifs <;> rfl

@[simp] lemma windows_applyEdgeAdhesion (s : BlobState) :
    (applyEdgeAdhesion s).windows = s.windows := by
  unfold applyEdgeAdhesion
  cases nearestWindow s <;> rfl

@[simp] lemma moveState_applyEdgeAdhesion (s : BlobState) :
    (applyEdgeAdhesion s).moveState = s.moveState := by
  unfold applyEdgeAdhesion
  cases nearestWindow s <;> rfl

@[simp] lemma windows_applyWindowAttraction (env : Env) (s : BlobState)
    (dt : ℚ) : (applyWindowAttraction env s dt).windows = s.windows := by
  unfold applyWindowAttraction
  dsimp only
  split_ifs <;> rfl

@[simp] lemma moveState_applyWindowAttraction (env : Env) (s : BlobState)
    (dt : ℚ) : (applyWindowAttraction env s dt).moveState = s.moveState := by
  unfold applyWindowAttraction
  dsimp only
  split_ifs <;> rfl

@[simp] lemma windows_applyDragForces (env : Env) (s : BlobState) :
    (applyDragForces env s).windows = s.windows := rfl

@[simp] lemma moveState_applyDragForces (env : Env) (s : BlobState) :
    (applyDragForces env s).moveState = s.moveState := rfl

@[simp] lemma windows_applyFloatForces (env : Env) (s : BlobState) (dt : ℚ) :
    (applyFloatForces env s dt).windows = s.windows := rfl

@[simp] lemma moveState_applyFloatForces (env : Env) (s : BlobState) (dt : ℚ) :
    (applyFloatForces env s dt).moveState = s.moveState := rfl

@[simp] lemma windows_computeFloatTarget (s : BlobState) :
    (computeFloatTarget s).windows = s.windows := by
  unfold computeFloatTarget
  cases nearestWindow s
  · rfl
  · dsimp only
    split <;> rfl

@[simp] lemma moveState_computeFloatTarget (s : BlobState) :
    (computeFloatTarget s).moveState = s.moveState := by
  unfold computeFloatTarget
  cases nearestWindow s
  · rfl
  · dsimp only
    split <;> rfl

@[simp] lemma windows_snapToEdge (s : BlobState) :
    (snapToEdge s).windows = s.windows := by
  unfold snapToEdge
  cases nearestWindow s <;> rfl

@[simp] lemma moveState_snapToEdge (s : BlobState) :
    (snapToEdge s).moveState = s.moveState := by
  unfold snapToEdge
  cases nearestWindow s <;> rfl

@[simp] lemma windows_applyWalkForces (env : Env) (s : BlobState) (dt : ℚ) :
    (applyWalkForces env s dt).windows = s.windows := by
  unfold applyWalkForces
  cases nearestWindow s
  · rfl
  · cases he : s.walkEdge <;> simp only [he] <;> split_ifs <;> rfl

@[simp] lemma windows_moveStateSwitch (env : Env) (s : BlobState) (dt : ℚ) :
    (moveStateSwitch env s dt).windows = s.windows := by
  unfold moveStateSwitch
  cases s.moveState <;> dsimp only <;>
    first
    | (split_ifs <;> simp)
    | simp

@[simp] lemma windows_constraintPass (env : Env) (bm : ℚ) (m : MonitorRect)
    (s : BlobState) : (constraintPass env bm m s).windows = s.windows := by
  unfold constraintPass
  dsimp only
  split_ifs <;> simp

@[simp] lemma moveState_constraintPass (env : Env) (bm : ℚ) (m : MonitorRect)
    (s : BlobState) : (constraintPass env bm m s).moveState = s.moveState := by
  unfold constraintPass
  dsimp only
  split_ifs <;> simp

@[simp] lemma windows_stepPre (env : Env) (s : BlobState) (dt : ℚ) :
    (stepPre env s dt).windows = s.windows := by
  unfold stepPre
  dsimp only
  split_ifs <;>
    simp only [windows_updateCentroid, windows_verletIntegrate,
      windows_applyWindowAttraction, windows_applyEdgeAdhesion,
      windows_moveStateSwitch]

lemma getKineticEnergy_floatTimer (s : BlobState) (t : ℚ) :
    getKineticEnergy { s with floatTimer := t } = getKineticEnergy s := rfl

-- ── C7: empty monitor list makes the step a no-op ────────────────────────

/-- Claim C7: if the supplied monitor list is empty, stepBlob returns the
body state exactly unchanged — nodes, springs, centroid, radius, behavior
mode, drag/walk/float bookkeeping, breathing phase and window list are all
identical for that tick. -/
theorem C7_empty_monitors_noop (env : Env) (s : BlobState) (dt : ℚ) :
    stepBlob env s dt [] = s := rfl

-- ── C10: updateDrag writes only the drag bookkeeping ─────────────────────

/-- Claim C10: updateDrag copies the stored pointer position into
(prevDragX, prevDragY) and stores the new pointer into (dragX, dragY);
every other field of the body state is unchanged. -/
theorem C10_updateDrag_frame (s : BlobState) (mx my : ℚ) :
    (updateDrag s mx my).prevDragX = s.dragX ∧
    (updateDrag s mx my).prevDragY = s.dragY ∧
    (updateDrag s mx my).dragX = mx ∧
    (updateDrag s mx my).dragY = my ∧
    (updateDrag s mx my).nodes = s.nodes ∧
    (updateDrag s mx my).springs = s.springs ∧
    (updateDrag s mx my).cx = s.cx ∧
    (updateDrag s mx my).cy = s.cy ∧
    (updateDrag s mx my).radius = s.radius ∧
    (updateDrag s mx my).moveState = s.moveState ∧
    (updateDrag s mx my).grabNodeIdx = s.grabNodeIdx ∧
    (updateDrag s mx my).grabOffsetX = s.grabOffsetX ∧
    (updateDrag s mx my).grabOffsetY = s.grabOffsetY ∧
    (updateDrag s mx my).walkDir = s.walkDir ∧
    (updateDrag s mx my).walkEdge = s.walkEdge ∧
    (updateDrag s mx my).walkSpeed = s.walkSpeed ∧
    (updateDrag s mx my).targetX = s.targetX ∧
    (updateDrag s mx my).targetY = s.targetY ∧
    (updateDrag s mx my).floatTimer = s.floatTimer ∧
    (updateDrag s mx my).targetPressure = s.targetPressure ∧
    (updateDrag s mx my).breathPhase = s.breathPhase ∧
    (updateDrag s mx my).windows = s.windows :=
  ⟨rfl, rfl, rfl, rfl, rfl, rfl, rfl, rfl, rfl, rfl, rfl, rfl, rfl, rfl,
   rfl, rfl, rfl, rfl, rfl, rfl, rfl, rfl⟩

-- ── C9: edge adhesion introduces no spurious velocity ────────────────────

/-- Claim C9: applyEdgeAdhesion translates every node's position and
previous position by the same vector, so each node's implicit velocity
(x - ox, y - oy) is exactly unchanged by the adhesion step. -/
theorem C9_adhesion_velocity (s : BlobState) :
    List.Forall₂
      (fun n n' : BlobNode =>
        n'.x - n'.ox = n.x - n.ox ∧ n'.y - n'.oy = n.y - n.oy)
      s.nodes (applyEdgeAdhesion s).nodes := by
  unfold applyEdgeAdhesion
  cases nearestWindow s
  · exact List.forall₂_same.2 (fun n _ => ⟨rfl, rfl⟩)
  · dsimp only
    rw [List.forall₂_map_right_iff]
    refine List.forall₂_same.2 (fun n _ => ⟨?_, ?_⟩) <;> dsimp only <;> ring

-- ── C8: division guards on degenerate geometry ───────────────────────────

/-- Claim C8: the numerical routines never divide by zero on degenerate
geometry — the spring-relaxation distance guard (safeDist) and the
pressure-area guard (areaOrOne) are never zero, and the cursor-stick
constraint leaves the state untouched (performing no division) whenever
the cursor-to-centroid distance falls below its guard threshold. -/
theorem C8_division_guards :
    (∀ (env : Env) (dx dy : ℚ), safeDist env dx dy ≠ 0) ∧
    (∀ ns : List BlobNode, areaOrOne ns ≠ 0) ∧
    (∀ (env : Env) (s : BlobState),
      env.sqrt ((s.dragX - s.cx) * (s.dragX - s.cx) +
        (s.dragY - s.cy) * (s.dragY - s.cy)) < 1 →
      applyCursorStickConstraint env s = s) := by
  refine ⟨fun env dx dy => ?_, fun ns => ?_, fun env s h => ?_⟩
  · unfold safeDist
    dsimp only
    split_ifs with h
    · norm_num
    · exact h
  · unfold areaOrOne
    dsimp only
    split_ifs with h
    · norm_num
    · exact h
  · unfold applyCursorStickConstraint
    dsimp only
    rw [if_pos h]

/-- Witness for C8: with the cursor exactly at the centroid, the guard
branch of the cursor-stick constraint fires and the state is unchanged. -/
theorem C8_division_guards_witness :
    applyCursorStickConstraint envC baseState = baseState :=
  C8_division_guards.2.2 envC baseState (of_decide_eq_true (by with_unfolding_all rfl))

-- ── Predicates used by the claims ────────────────────────────────────────

/-- A node's current position lies within the monitor rectangle. -/
def nodeInRect (m : MonitorRect) (n : BlobNode) : Prop :=
  m.x ≤ n.x ∧ n.x ≤ m.x + m.width ∧ m.y ≤ n.y ∧ n.y ≤ m.y + m.height

/-- A node's previous position lies within the monitor rectangle. -/
def prevInRect (m : MonitorRect) (n : BlobNode) : Prop :=
  m.x ≤ n.ox ∧ n.ox ≤ m.x + m.width ∧ m.y ≤ n.oy ∧ n.oy ≤ m.y + m.height

instance (m : MonitorRect) (n : BlobNode) : Decidable (nodeInRect m n) := by
  unfold nodeInRect; infer_instance

instance (m : MonitorRect) (n : BlobNode) : Decidable (prevInRect m n) := by
  unfold prevInRect; infer_instance

/-- Squared implicit velocity of a node. -/
def velSq (n : BlobNode) : ℚ :=
  (n.x - n.ox) * (n.x - n.ox) + (n.y - n.oy) * (n.y - n.oy)

/-- A node strictly inside a window rectangle (the processed case of the
centroid-outside mode of constrainWindowWalls). -/
def strictlyInside (w : WindowRect) (n : BlobNode) : Prop :=
  w.x < n.x ∧ n.x < w.x + w.width ∧ w.y < n.y ∧ n.y < w.y + w.height

instance (w : WindowRect) (n : BlobNode) : Decidable (strictlyInside w n) := by
  unfold strictlyInside; infer_instance

/-- The centroid test of constrainWindowWalls (strict interior). -/
def centroidInsideWindow (s : BlobState) (w : WindowRect) : Prop :=
  s.cx > w.x ∧ s.cx < w.x + w.width ∧ s.cy > w.y ∧ s.cy < w.y + w.height

instance (s : BlobState) (w : WindowRect) :
    Decidable (centroidInsideWindow s w) := by
  unfold centroidInsideWindow; infer_instance

-- ── Auxiliary lemmas on the best-so-far folds ────────────────────────────

/-- A best-so-far fold whose step keeps or replaces the accumulator stays
some and yields an element of the initial candidate or the list. -/
lemma foldl_best_mem {α β : Type} (f : Option (α × β) → α → Option (α × β))
    (hf : ∀ p a, (∃ b, f (some p) a = some (a, b)) ∨ f (some p) a = some p) :
    ∀ (l : List α) (p : α × β),
      ∃ q, l.foldl f (some p) = some q ∧ (q.1 = p.1 ∨ q.1 ∈ l) := by
  intro l
  induction l with
  | nil => exact fun p => ⟨p, rfl, Or.inl rfl⟩
  | cons a l ih =>
    intro p
    rcases hf p a with ⟨b, hb⟩ | hb
    · obtain ⟨q, hq, hmem⟩ := ih (a, b)
      refine ⟨q, ?_, ?_⟩
      · simpa [hb] using hq
      · rcases hmem with h | h
        · exact Or.inr (by simp [h])
        · exact Or.inr (by simp [h])
    · obtain ⟨q, hq, hmem⟩ := ih p
      refine ⟨q, ?_, ?_⟩
      · simpa [hb] using hq
      · rcases hmem with h | h
        · exact Or.inl h
        · exact Or.inr (by simp [h])

/-- nearestWindow of a state with no windows is none. -/
lemma nearestWindow_nil {s : BlobState} (h : s.windows = []) :
    nearestWindow s = none := by
  unfold nearestWindow
  rw [h]
  rfl

/-- nearestWindow of a state with windows returns a window of the list. -/
lemma nearestWindow_isSome {s : BlobState} (h : s.windows ≠ []) :
    ∃ w, nearestWindow s = some w ∧ w ∈ s.windows := by
  rcases hw : s.windows with _ | ⟨a, l⟩
  · exact absurd hw h
  · obtain ⟨q, hq, hmem⟩ := foldl_best_mem
      (fun acc w =>
        let d := rectDistSq s.cx s.cy w.x w.y w.width w.height
        match acc with
        | none => some (w, d)
        | some (bw, bd) => if d < bd then some (w, d) else some (bw, bd))
      (fun p a => by
        dsimp only
        split_ifs
        · exact Or.inl ⟨_, rfl⟩
        · exact Or.inr rfl)
      l (a, rectDistSq s.cx s.cy a.x a.y a.width a.height)
    refine ⟨q.1, ?_, ?_⟩
    · unfold nearestWindow
      rw [hw, List.foldl_cons]
      dsimp only
      rw [hq]
      rfl
    · rcases hmem with h1 | h1
      · simp [h1]
      · simp [h1]

/-- findNearestMonitor of a nonempty list returns a monitor of the list. -/
lemma findNearestMonitor_mem {monitors : List MonitorRect} (x y : ℚ)
    (h : monitors ≠ []) : findNearestMonitor x y monitors ∈ monitors := by
  rcases monitors with _ | ⟨a, l⟩
  · exact absurd rfl h
  · obtain ⟨q, hq, hmem⟩ := foldl_best_mem
      (fun acc m =>
        let d := rectDistSq x y m.x m.y m.width m.height
        match acc with
        | none => some (m, d)
        | some (bm, bd) => if d < bd then some (m, d) else some (bm, bd))
      (fun p a => by
        dsimp only
        split_ifs
        · exact Or.inl ⟨_, rfl⟩
        · exact Or.inr rfl)
      l (a, rectDistSq x y a.x a.y a.width a.height)
    unfold findNearestMonitor
    rw [List.foldl_cons]
    dsimp only
    rw [hq]
    rcases hmem with h1 | h1
    · simp [h1]
    · simp [h1]

/-- The monitor resolved for a point always comes from the supplied list. -/
lemma resolveMonitor_mem {monitors : List MonitorRect} (x y : ℚ)
    (h : monitors ≠ []) : resolveMonitor x y monitors ∈ monitors := by
  unfold resolveMonitor
  rcases hf : findContainingMonitor x y monitors with _ | m
  · exact findNearestMonitor_mem x y h
  · exact List.mem_of_find?_eq_some hf

-- ── Containment lemmas for the bounds resolvers ──────────────────────────

lemma clampNodeX_y (left right : ℚ) (n : BlobNode) :
    (clampNodeX left right n).y = n.y := by
  unfold clampNodeX
  split_ifs <;> rfl

lemma clampNodeX_oy (left right : ℚ) (n : BlobNode) :
    (clampNodeX left right n).oy = n.oy := by
  unfold clampNodeX
  split_ifs <;> rfl

lemma clampNodeY_x (top bottom : ℚ) (n : BlobNode) :
    (clampNodeY top bottom n).x = n.x := by
  unfold clampNodeY
  split_ifs <;> rfl

lemma clampNodeY_ox (top bottom : ℚ) (n : BlobNode) :
    (clampNodeY top bottom n).ox = n.ox := by
  unfold clampNodeY
  split_ifs <;> rfl

lemma clampNodeX_x_mem (left right : ℚ) (n : BlobNode) (h : left ≤ right) :
    left ≤ (clampNodeX left right n).x ∧ (clampNodeX left right n).x ≤ right := by
  unfold clampNodeX
  split_ifs with h1 h2
  · dsimp only
    constructor <;> linarith
  · dsimp only
    constructor <;> linarith
  · constructor <;> linarith

lemma clampNodeY_y_mem (top bottom : ℚ) (n : BlobNode) (h : top ≤ bottom) :
    top ≤ (clampNodeY top bottom n).y ∧ (clampNodeY top bottom n).y ≤ bottom := by
  unfold clampNodeY
  split_ifs with h1 h2
  · dsimp only
    constructor <;> linarith
  · dsimp only
    constructor <;> linarith
  · constructor <;> linarith

/-- The per-node body of constrainToBounds leaves the current position
inside the rectangle whenever the rectangle is nondegenerate. -/
lemma clampNodeRect_pos_mem (left right top bottom : ℚ) (n : BlobNode)
    (hx : left ≤ right) (hy : top ≤ bottom) :
    left ≤ (clampNodeRect left right top bottom n).x ∧
    (clampNodeRect left right top bottom n).x ≤ right ∧
    top ≤ (clampNodeRect left right top bottom n).y ∧
    (clampNodeRect left right top bottom n).y ≤ bottom := by
  unfold clampNodeRect
  have hxm := clampNodeX_x_mem left right n hx
  have hym := clampNodeY_y_mem top bottom (clampNodeX left right n) hy
  rw [clampNodeY_x]
  exact ⟨hxm.1, hxm.2, hym.1, hym.2⟩

/-- Every node position is inside the monitor after constrainToBounds. -/
lemma constrainToBounds_pos_mem (s : BlobState) (m : MonitorRect)
    (hw : 0 ≤ m.width) (hh : 0 ≤ m.height) :
    ∀ n ∈ (constrainToBounds s m).nodes, nodeInRect m n := by
  intro n hn
  unfold constrainToBounds at hn
  obtain ⟨n0, _, rfl⟩ := List.mem_map.mp hn
  have := clampNodeRect_pos_mem m.x (m.x + m.width) m.y (m.y + m.height) n0
    (by linarith) (by linarith)
  exact ⟨this.1, this.2.1, this.2.2.1, this.2.2.2⟩

/-- The constraint pass ends with constrainToBounds, so every node
position is inside the monitor after it. -/
lemma constraintPass_pos_mem (env : Env) (bm : ℚ) (m : MonitorRect)
    (s : BlobState) (hw : 0 ≤ m.width) (hh : 0 ≤ m.height) :
    ∀ n ∈ (constraintPass env bm m s).nodes, nodeInRect m n := by
  unfold constraintPass
  exact constrainToBounds_pos_mem _ m hw hh

/-- The hard clamp never moves a node whose position is already inside the
monitor, so positional containment is preserved. -/
lemma hardClampToMonitor_preserves (s : BlobState) (m : MonitorRect)
    (h : ∀ n ∈ s.nodes, nodeInRect m n) :
    ∀ n ∈ (hardClampToMonitor s m).nodes, nodeInRect m n := by
  intro n hn
  unfold hardClampToMonitor at hn
  dsimp only at hn
  obtain ⟨n0, hn0, rfl⟩ := List.mem_map.mp hn
  obtain ⟨h1, h2, h3, h4⟩ := h n0 hn0
  rw [if_neg (by push_neg; exact ⟨h1, h2, h3, h4⟩)]
  exact ⟨h1, h2, h3, h4⟩

/-- snapToEdge is the identity on nodes when no windows are known. -/
lemma snapToEdge_nodes_of_nil (s : BlobState) (h : s.windows = []) :
    (snapToEdge s).nodes = s.nodes := by
  unfold snapToEdge
  rw [nearestWindow_nil h]

/-- With no windows the floating-arrival check never moves nodes: the
snap-to-edge early-returns on a missing nearest window. -/
lemma floatArrival_nodes_of_nil (env : Env) (s : BlobState)
    (h : s.windows = []) : (floatArrival env s).nodes = s.nodes := by
  unfold floatArrival
  dsimp only
  split_ifs with h1 h2
  · rw [snapToEdge_nodes_of_nil _ (by simp [h])]
  · rfl
  · rfl

-- ── C1: containment after a step ─────────────────────────────────────────

set_option maxHeartbeats 2000000 in
/-- Claim C1 counterexample: the claim as frozen also asserts containment
of previous positions (ox, oy).  Starting from a FREE body whose 14 nodes
sit right of the monitor at x = 1200 with a large leftward velocity, the
capped Verlet move brings every position back inside the monitor, so
neither the final bounds pass nor the hard clamp (whose guard only fires
on an out-of-bounds position) ever touches ox — the step ends with
ox = 1200, outside the resolved monitor [0,1000] x [0,1000]. -/
theorem C1_containment_counterexample :
    resolveMonitor (stepPre envC c1State (1/20)).cx
      (stepPre envC c1State (1/20)).cy [m1000] = m1000 ∧
    ¬ (∀ n ∈ (stepBlob envC c1State (1/20) [m1000]).nodes,
        nodeInRect m1000 n ∧ prevInRect m1000 n) := by
  have hne : MoveState.FREE ≠ MoveState.FLOATING := by decide
  have hpre : stepPre envC c1State (1/20) =
      { c1State with
        nodes := List.replicate NODE_COUNT ⟨900, 5003/10, 1200, 500⟩
        cx := 900
        cy := 5003/10
        floatTimer := 1999/20
        breathPhase := 1/8 } := by
    norm_num [stepPre, moveStateSwitch, verletIntegrate, updateCentroid,
      nearestWindow, applyWindowAttraction, applyEdgeAdhesion,
      computeFloatTarget, getKineticEnergy, applyFloatForces, applyDragForces,
      applyWalkForces, rectDistSq, c1State, baseState, envC, tableSqrt,
      sqrtTable, ringSprings, NODE_COUNT, DAMPING, MAX_VELOCITY,
      MAX_VELOCITY_FREE, GRAVITY, BREATH_SPEED, BREATH_AMOUNT, REST_THRESHOLD,
      List.replicate, List.getD, List.range, List.find?, List.foldl, List.set]
  have hnodes : (stepBlob envC c1State (1/20) [m1000]).nodes =
      List.replicate 14 (⟨900, 5003/10, 1200, 500⟩ : BlobNode) := by
    norm_num [hne, stepBlob, stepPre, stepPost, moveStateSwitch,
      verletIntegrate, updateCentroid, breathModOf, resolveMonitor,
      findContainingMonitor, findNearestMonitor, constraintPass, relaxSpring,
      applyPressure, polygonArea, areaOrOne, safeDist,
      applyCursorStickConstraint, constrainWindowWalls, constrainToBounds,
      clampNodeRect, clampNodeX, clampNodeY, hardClampToMonitor, floatArrival,
      snapToEdge, nearestWindow, applyWindowAttraction, applyEdgeAdhesion,
      computeFloatTarget, getKineticEnergy, applyFloatForces, applyDragForces,
      applyWalkForces, rectDistSq, c1State, baseState, m1000, envC, tableSqrt,
      sqrtTable, ringSprings, NODE_COUNT, DAMPING, MAX_VELOCITY,
      MAX_VELOCITY_FREE, GRAVITY, BREATH_SPEED, BREATH_AMOUNT, BOUNCE_DECAY,
      REST_THRESHOLD, PRESSURE_STRENGTH, STICK_RADIUS, FLOAT_SPEED,
      List.replicate, List.getD, List.range, List.find?, List.foldl, List.set]
  constructor
  · rw [hpre]
    norm_num [resolveMonitor, findContainingMonitor, m1000]
  · intro hall
    have hm : (⟨900, 5003/10, 1200, 500⟩ : BlobNode)
        ∈ (stepBlob envC c1State (1/20) [m1000]).nodes := by
      rw [hnodes]
      simp [List.mem_replicate]
    have h2 := (hall _ hm).2
    unfold prevInRect at h2
    norm_num [m1000] at h2

/-- Claim C1 (amended): after every call to stepBlob with a non-empty list
of nondegenerate monitors and an empty window list, every node's current
position (x, y) lies within the bounds of the monitor resolved for the
centroid during that step.  The containment does not extend to previous
positions (ox, oy) — see the counterexample — and with windows present the
floating-arrival snap can displace positions after the hard clamp. -/
theorem C1_containment_amended (env : Env) (s : BlobState) (dt : ℚ)
    (monitors : List MonitorRect) (hne : monitors ≠ [])
    (hmon : ∀ m ∈ monitors, 0 ≤ m.width ∧ 0 ≤ m.height)
    (hwin : s.windows = []) (hlen : s.nodes.length = NODE_COUNT) :
    ∀ n ∈ (stepBlob env s dt monitors).nodes,
      nodeInRect
        (resolveMonitor (stepPre env s dt).cx (stepPre env s dt).cy monitors)
        n := by
  rcases monitors with _ | ⟨m, ms⟩
  · exact absurd rfl hne
  intro n hn
  have hM : resolveMonitor (stepPre env s dt).cx (stepPre env s dt).cy (m :: ms)
      ∈ m :: ms := resolveMonitor_mem _ _ (by simp)
  obtain ⟨hMw, hMh⟩ :=
    hmon (resolveMonitor (stepPre env s dt).cx (stepPre env s dt).cy (m :: ms)) hM
  have hstep : stepBlob env s dt (m :: ms) =
      stepPost env (breathModOf env s dt)
        (resolveMonitor (stepPre env s dt).cx (stepPre env s dt).cy (m :: ms))
        (stepPre env s dt) := rfl
  rw [hstep] at hn
  set M := resolveMonitor (stepPre env s dt).cx (stepPre env s dt).cy (m :: ms)
    with hMdef
  set bm := breathModOf env s dt
  set s5 := stepPre env s dt with hs5
  have h5w : s5.windows = [] := by rw [hs5]; simp [hwin]
  have hXw : (updateCentroid (hardClampToMonitor
      (constraintPass env bm M (constraintPass env bm M s5)) M)).windows
      = [] := by simp [h5w]
  have hnodes : (stepPost env bm M s5).nodes =
      (hardClampToMonitor
        (constraintPass env bm M (constraintPass env bm M s5)) M).nodes := by
    unfold stepPost
    rw [floatArrival_nodes_of_nil _ _ hXw, nodes_updateCentroid]
  rw [hnodes] at hn
  exact hardClampToMonitor_preserves _ M
    (constraintPass_pos_mem env bm M _ hMw hMh) n hn

set_option maxHeartbeats 2000000 in
/-- Witness for the amended C1: the counterexample configuration (empty
window list, single nondegenerate monitor, 14 nodes) satisfies every
hypothesis, so the position of its (concretely computed) first node ends
inside the resolved monitor. -/
theorem C1_containment_amended_witness :
    nodeInRect
      (resolveMonitor (stepPre envC c1State (1/20)).cx
        (stepPre envC c1State (1/20)).cy [m1000])
      ⟨900, 5003/10, 1200, 500⟩ := by
  have hmem : (⟨900, 5003/10, 1200, 500⟩ : BlobNode)
      ∈ (stepBlob envC c1State (1/20) [m1000]).nodes := by
    have hne : MoveState.FREE ≠ MoveState.FLOATING := by decide
    norm_num [hne, stepBlob, stepPre, stepPost, moveStateSwitch,
      verletIntegrate, updateCentroid, breathModOf, resolveMonitor,
      findContainingMonitor, findNearestMonitor, constraintPass, relaxSpring,
      applyPressure, polygonArea, areaOrOne, safeDist,
      applyCursorStickConstraint, constrainWindowWalls, constrainToBounds,
      clampNodeRect, clampNodeX, clampNodeY, hardClampToMonitor, floatArrival,
      snapToEdge, nearestWindow, applyWindowAttraction, applyEdgeAdhesion,
      computeFloatTarget, getKineticEnergy, applyFloatForces, applyDragForces,
      applyWalkForces, rectDistSq, c1State, baseState, m1000, envC, tableSqrt,
      sqrtTable, ringSprings, NODE_COUNT, DAMPING, MAX_VELOCITY,
      MAX_VELOCITY_FREE, GRAVITY, BREATH_SPEED, BREATH_AMOUNT, BOUNCE_DECAY,
      REST_THRESHOLD, PRESSURE_STRENGTH, STICK_RADIUS, FLOAT_SPEED,
      List.replicate, List.getD, List.range, List.find?, List.foldl, List.set]
  exact C1_containment_amended envC c1State (1/20) [m1000] (by simp)
    (by norm_num [m1000]) (by norm_num [c1State, baseState])
    (by norm_num [c1State, baseState, NODE_COUNT]) _ hmem

-- ── C3: the FREE exit transition ─────────────────────────────────────────

lemma getKineticEnergy_eq_of_nodes (s1 s2 : BlobState)
    (h : s1.nodes = s2.nodes) : getKineticEnergy s1 = getKineticEnergy s2 := by
  unfold getKineticEnergy
  rw [h]

/-- In the FREE state, once the cooldown has elapsed and kinetic energy is
below the rest threshold, the pre-constraint phase of the step moves the
body to FLOATING — regardless of whether any window is known. -/
lemma stepPre_free_to_floating (env : Env) (s : BlobState) (dt : ℚ)
    (hfree : s.moveState = .FREE)
    (ht : s.floatTimer - min dt (1/20) ≤ 0)
    (he : getKineticEnergy s < REST_THRESHOLD) :
    (stepPre env s dt).moveState = .FLOATING := by
  have hSW : (moveStateSwitch env
      { s with breathPhase := s.breathPhase + BREATH_SPEED * min dt (1/20) }
      (min dt (1/20))).moveState = .FLOATING := by
    unfold moveStateSwitch
    dsimp only
    simp only [hfree]
    rw [if_pos]
    · simp
    · refine ⟨ht, lt_of_eq_of_lt (getKineticEnergy_eq_of_nodes _ s ?_) he⟩
      rfl
  have hC : ¬ ((s.moveState = MoveState.WALKING ∨ s.moveState = MoveState.IDLE)
      ∧ s.windows ≠ []) := by
    rw [hfree]
    rintro ⟨h | h, -⟩ <;> exact absurd h (by decide)
  unfold stepPre
  dsimp only
  rw [if_neg hC]
  rw [if_pos ⟨hC, by rw [hSW]; decide⟩]
  simp only [moveState_updateCentroid, moveState_verletIntegrate,
    moveState_applyWindowAttraction]
  exact hSW

lemma floatArrival_moveState_cases (env : Env) (s : BlobState) :
    (floatArrival env s).moveState = s.moveState ∨
    (floatArrival env s).moveState = .IDLE := by
  unfold floatArrival
  dsimp only
  split_ifs with h1 h2
  · right
    simp
  · left
    rfl
  · left
    rfl

set_option maxHeartbeats 2000000 in
/-- Claim C3 counterexample: a FREE body with an elapsed cooldown, kinetic
energy below the rest threshold and an empty window list leaves FREE on
the very next tick: the FREE branch sets FLOATING before computeFloatTarget
returns early for lack of a window, so the claim's "remains in Free on
every subsequent tick" is false. -/
theorem C3_free_transition_counterexample :
    (stepBlob envC c3State (1/20) [m1000]).moveState = MoveState.FLOATING ∧
    (stepBlob envC c3State (1/20) [m1000]).moveState ≠ MoveState.FREE := by
  have h : (stepBlob envC c3State (1/20) [m1000]).moveState
      = MoveState.FLOATING := by
    norm_num [stepBlob, stepPre, stepPost, moveStateSwitch,
      verletIntegrate, updateCentroid, breathModOf, resolveMonitor,
      findContainingMonitor, findNearestMonitor, constraintPass, relaxSpring,
      applyPressure, polygonArea, areaOrOne, safeDist,
      applyCursorStickConstraint, constrainWindowWalls, constrainToBounds,
      clampNodeRect, clampNodeX, clampNodeY, hardClampToMonitor, floatArrival,
      snapToEdge, nearestWindow, applyWindowAttraction, applyEdgeAdhesion,
      computeFloatTarget, getKineticEnergy, applyFloatForces, applyDragForces,
      applyWalkForces, rectDistSq, c3State, baseState, m1000, envC, tableSqrt,
      sqrtTable, ringSprings, NODE_COUNT, DAMPING, MAX_VELOCITY,
      MAX_VELOCITY_FREE, GRAVITY, BREATH_SPEED, BREATH_AMOUNT, BOUNCE_DECAY,
      REST_THRESHOLD, PRESSURE_STRENGTH, STICK_RADIUS, FLOAT_SPEED,
      List.replicate, List.getD, List.range, List.find?, List.foldl, List.set]
  exact ⟨h, by rw [h]; decide⟩

/-- Claim C3 (amended): from FREE with an empty window list, once the
cooldown timer has elapsed and kinetic energy falls below the rest
threshold, the step does not remain in FREE: it transitions to FLOATING
(computeFloatTarget being a no-op without windows), or all the way to IDLE
within the same tick if the stale float target is already within the
arrival threshold. -/
theorem C3_free_transition_amended (env : Env) (s : BlobState) (dt : ℚ)
    (monitors : List MonitorRect) (hne : monitors ≠ [])
    (hfree : s.moveState = .FREE) (hwin : s.windows = [])
    (ht : s.floatTimer - min dt (1/20) ≤ 0)
    (he : getKineticEnergy s < REST_THRESHOLD) :
    (stepBlob env s dt monitors).moveState = .FLOATING ∨
    (stepBlob env s dt monitors).moveState = .IDLE := by
  rcases monitors with _ | ⟨m, ms⟩
  · exact absurd rfl hne
  have h5 : (stepPre env s dt).moveState = .FLOATING :=
    stepPre_free_to_floating env s dt hfree ht he
  have hstep : stepBlob env s dt (m :: ms) =
      floatArrival env
        (updateCentroid
          (hardClampToMonitor
            (constraintPass env (breathModOf env s dt)
              (resolveMonitor (stepPre env s dt).cx (stepPre env s dt).cy
                (m :: ms))
              (constraintPass env (breathModOf env s dt)
                (resolveMonitor (stepPre env s dt).cx (stepPre env s dt).cy
                  (m :: ms))
                (stepPre env s dt)))
            (resolveMonitor (stepPre env s dt).cx (stepPre env s dt).cy
              (m :: ms)))) := rfl
  rw [hstep]
  have hXm : (updateCentroid
      (hardClampToMonitor
        (constraintPass env (breathModOf env s dt)
          (resolveMonitor (stepPre env s dt).cx (stepPre env s dt).cy (m :: ms))
          (constraintPass env (breathModOf env s dt)
            (resolveMonitor (stepPre env s dt).cx (stepPre env s dt).cy
              (m :: ms))
            (stepPre env s dt)))
        (resolveMonitor (stepPre env s dt).cx (stepPre env s dt).cy
          (m :: ms)))).moveState = .FLOATING := by
    simp [h5]
  rcases floatArrival_moveState_cases env _ with h | h
  · left
    rw [h, hXm]
  · right
    exact h

/-- Witness for the amended C3: the counterexample configuration satisfies
every hypothesis. -/
theorem C3_free_transition_amended_witness :
    (stepBlob envC c3State (1/20) [m1000]).moveState = .FLOATING ∨
    (stepBlob envC c3State (1/20) [m1000]).moveState = .IDLE :=
  C3_free_transition_amended envC c3State (1/20) [m1000] (by simp) rfl rfl
    (by norm_num [c3State, baseState])
    (by norm_num [getKineticEnergy, c3State, baseState, REST_THRESHOLD,
      NODE_COUNT, List.replicate, List.foldl])

-- ── C5: drag throw cap ───────────────────────────────────────────────────

/-- C5 concrete configuration: a single node, pointer displacement (30, 40)
(scaled throw (240, 320) of norm 400, above the 120 cap). -/
def c5State : BlobState :=
  { baseState with
    nodes := [⟨10, 20, 0, 0⟩]
    dragX := 30
    dragY := 40
    moveState := .DRAGGING }

/-- Claim C5: immediately after endDrag every node's implicit velocity
(x - ox, y - oy) has squared magnitude at most 120^2 — the configured
maximum per-tick throw displacement — however large the last pointer
displacement, provided the environment square root is exact and
nonnegative at the throw argument. -/
theorem C5_throw_cap (env : Env) (s : BlobState) (tx ty : ℚ)
    (htx : tx = (s.dragX - s.prevDragX) * 8)
    (hty : ty = (s.dragY - s.prevDragY) * 8)
    (hsq : env.sqrt (tx * tx + ty * ty) * env.sqrt (tx * tx + ty * ty)
      = tx * tx + ty * ty)
    (hpos : 0 ≤ env.sqrt (tx * tx + ty * ty)) :
    ∀ n ∈ (endDrag env s).nodes,
      (n.x - n.ox) * (n.x - n.ox) + (n.y - n.oy) * (n.y - n.oy)
        ≤ 120 * 120 := by
  subst htx hty
  set tx := (s.dragX - s.prevDragX) * 8 with htx
  set ty := (s.dragY - s.prevDragY) * 8 with hty
  set sp := env.sqrt (tx * tx + ty * ty) with hsp
  unfold endDrag
  dsimp only
  rw [← htx, ← hty, ← hsp]
  split_ifs with h
  · intro n hn
    obtain ⟨n0, _, rfl⟩ := List.mem_map.mp hn
    dsimp only
    have hx : n0.x - (n0.x - tx * (120 / sp)) = tx * (120 / sp) := by ring
    have hy : n0.y - (n0.y - ty * (120 / sp)) = ty * (120 / sp) := by ring
    rw [hx, hy]
    have hspn : sp ≠ 0 := by intro h0; rw [h0] at h; norm_num at h
    have heq : tx * (120 / sp) * (tx * (120 / sp)) +
        ty * (120 / sp) * (ty * (120 / sp))
        = (tx * tx + ty * ty) * (14400 / (sp * sp)) := by
      field_simp
      ring
    rw [heq, ← hsq, mul_comm, div_mul_cancel₀]
    · norm_num
    · exact mul_ne_zero hspn hspn
  · intro n hn
    obtain ⟨n0, _, rfl⟩ := List.mem_map.mp hn
    dsimp only
    have hx : n0.x - (n0.x - tx) = tx := by ring
    have hy : n0.y - (n0.y - ty) = ty := by ring
    rw [hx, hy, ← hsq]
    push_neg at h
    nlinarith [hpos, h]

/-- Witness for C5: concrete drag release with throw (240, 320), norm 400,
capped so the single node ends with velocity (72, 96) of squared magnitude
exactly 120^2. -/
theorem C5_throw_cap_witness :
    ((⟨10, 20, -62, -76⟩ : BlobNode).x - (⟨10, 20, -62, -76⟩ : BlobNode).ox) *
      ((⟨10, 20, -62, -76⟩ : BlobNode).x - (⟨10, 20, -62, -76⟩ : BlobNode).ox) +
    ((⟨10, 20, -62, -76⟩ : BlobNode).y - (⟨10, 20, -62, -76⟩ : BlobNode).oy) *
      ((⟨10, 20, -62, -76⟩ : BlobNode).y - (⟨10, 20, -62, -76⟩ : BlobNode).oy)
      ≤ 120 * 120 := by
  have hmem : (⟨10, 20, -62, -76⟩ : BlobNode) ∈ (endDrag envC c5State).nodes := by
    norm_num [endDrag, c5State, baseState, envC, tableSqrt, sqrtTable,
      List.find?, List.map]
  exact C5_throw_cap envC c5State 240 320
    (by norm_num [c5State, baseState])
    (by norm_num [c5State, baseState])
    (by norm_num [c5State, baseState, envC, tableSqrt, sqrtTable, List.find?])
    (by norm_num [c5State, baseState, envC, tableSqrt, sqrtTable, List.find?])
    _ hmem

-- ── C6: energy decay on contact ──────────────────────────────────────────

lemma clampNodeX_velsq (left right : ℚ) (n : BlobNode) (h : left ≤ right) :
    ((clampNodeX left right n).x - (clampNodeX left right n).ox) *
      ((clampNodeX left right n).x - (clampNodeX left right n).ox)
      ≤ (n.x - n.ox) * (n.x - n.ox) ∧
    ((n.x < left ∨ right < n.x) →
      ((clampNodeX left right n).x - (clampNodeX left right n).ox) *
        ((clampNodeX left right n).x - (clampNodeX left right n).ox)
        ≤ (9/100) * ((n.x - n.ox) * (n.x - n.ox))) := by
  unfold clampNodeX
  split_ifs with h1 h2
  · dsimp only
    have hb : (left - min right (left - (n.x - n.ox) * BOUNCE_DECAY)) *
        (left - min right (left - (n.x - n.ox) * BOUNCE_DECAY))
        ≤ (9/100) * ((n.x - n.ox) * (n.x - n.ox)) := by
      rcases min_cases right (left - (n.x - n.ox) * BOUNCE_DECAY) with
        ⟨hm, hle⟩ | ⟨hm, hlt⟩ <;> rw [hm] <;> unfold BOUNCE_DECAY at * <;>
        nlinarith [mul_self_nonneg (n.x - n.ox)]
    exact ⟨by nlinarith [mul_self_nonneg (n.x - n.ox)], fun _ => hb⟩
  · dsimp only
    have hb : (right - max left (right - (n.x - n.ox) * BOUNCE_DECAY)) *
        (right - max left (right - (n.x - n.ox) * BOUNCE_DECAY))
        ≤ (9/100) * ((n.x - n.ox) * (n.x - n.ox)) := by
      rcases max_cases left (right - (n.x - n.ox) * BOUNCE_DECAY) with
        ⟨hm, hle⟩ | ⟨hm, hlt⟩ <;> rw [hm] <;> unfold BOUNCE_DECAY at * <;>
        nlinarith [mul_self_nonneg (n.x - n.ox)]
    exact ⟨by nlinarith [mul_self_nonneg (n.x - n.ox)], fun _ => hb⟩
  · refine ⟨le_refl _, fun hd => ?_⟩
    rcases hd with hd | hd <;> linarith

lemma clampNodeY_velsq (top bottom : ℚ) (n : BlobNode) (h : top ≤ bottom) :
    ((clampNodeY top bottom n).y - (clampNodeY top bottom n).oy) *
      ((clampNodeY top bottom n).y - (clampNodeY top bottom n).oy)
      ≤ (n.y - n.oy) * (n.y - n.oy) ∧
    ((n.y < top ∨ bottom < n.y) →
      ((clampNodeY top bottom n).y - (clampNodeY top bottom n).oy) *
        ((clampNodeY top bottom n).y - (clampNodeY top bottom n).oy)
        ≤ (9/100) * ((n.y - n.oy) * (n.y - n.oy))) := by
  unfold clampNodeY
  split_ifs with h1 h2
  · dsimp only
    have hb : (top - min bottom (top - (n.y - n.oy) * BOUNCE_DECAY)) *
        (top - min bottom (top - (n.y - n.oy) * BOUNCE_DECAY))
        ≤ (9/100) * ((n.y - n.oy) * (n.y - n.oy)) := by
      rcases min_cases bottom (top - (n.y - n.oy) * BOUNCE_DECAY) with
        ⟨hm, hle⟩ | ⟨hm, hlt⟩ <;> rw [hm] <;> unfold BOUNCE_DECAY at * <;>
        nlinarith [mul_self_nonneg (n.y - n.oy)]
    exact ⟨by nlinarith [mul_self_nonneg (n.y - n.oy)], fun _ => hb⟩
  · dsimp only
    have hb : (bottom - max top (bottom - (n.y - n.oy) * BOUNCE_DECAY)) *
        (bottom - max top (bottom - (n.y - n.oy) * BOUNCE_DECAY))
        ≤ (9/100) * ((n.y - n.oy) * (n.y - n.oy)) := by
      rcases max_cases top (bottom - (n.y - n.oy) * BOUNCE_DECAY) with
        ⟨hm, hle⟩ | ⟨hm, hlt⟩ <;> rw [hm] <;> unfold BOUNCE_DECAY at * <;>
        nlinarith [mul_self_nonneg (n.y - n.oy)]
    exact ⟨by nlinarith [mul_self_nonneg (n.y - n.oy)], fun _ => hb⟩
  · refine ⟨le_refl _, fun hd => ?_⟩
    rcases hd with hd | hd <;> linarith

lemma clampNodeRect_velsq (left right top bottom : ℚ) (n : BlobNode)
    (hx : left ≤ right) (hy : top ≤ bottom) :
    velSq (clampNodeRect left right top bottom n) ≤ velSq n ∧
    ((n.x < left ∨ right < n.x) → n.x ≠ n.ox →
      velSq (clampNodeRect left right top bottom n) < velSq n) ∧
    ((n.y < top ∨ bottom < n.y) → n.y ≠ n.oy →
      velSq (clampNodeRect left right top bottom n) < velSq n) := by
  have hX := clampNodeX_velsq left right n hx
  have hY := clampNodeY_velsq top bottom (clampNodeX left right n) hy
  rw [clampNodeX_y, clampNodeX_oy] at hY
  unfold clampNodeRect velSq
  rw [clampNodeY_x, clampNodeY_ox]
  refine ⟨by nlinarith [hX.1, hY.1], ?_, ?_⟩
  · intro hd hv
    have h1 := hX.2 hd
    have h2 : 0 < (n.x - n.ox) * (n.x - n.ox) :=
      mul_self_pos.mpr (sub_ne_zero.mpr hv)
    nlinarith [hY.1]
  · intro hd hv
    have h1 := hY.2 hd
    have h2 : 0 < (n.y - n.oy) * (n.y - n.oy) :=
      mul_self_pos.mpr (sub_ne_zero.mpr hv)
    nlinarith [hX.1]

lemma resolveOutsideWindow_velsq (w : WindowRect) (n : BlobNode) :
    velSq (resolveOutsideWindow w n) ≤ velSq n ∧
    (strictlyInside w n →
      (min (min (n.x - w.x) (w.x + w.width - n.x))
          (min (n.y - w.y) (w.y + w.height - n.y)) = n.y - w.y ∨
        min (min (n.x - w.x) (w.x + w.width - n.x))
          (min (n.y - w.y) (w.y + w.height - n.y)) = w.y + w.height - n.y) →
      n.y ≠ n.oy → velSq (resolveOutsideWindow w n) < velSq n) ∧
    (strictlyInside w n →
      ¬ (min (min (n.x - w.x) (w.x + w.width - n.x))
          (min (n.y - w.y) (w.y + w.height - n.y)) = n.y - w.y ∨
        min (min (n.x - w.x) (w.x + w.width - n.x))
          (min (n.y - w.y) (w.y + w.height - n.y)) = w.y + w.height - n.y) →
      n.x ≠ n.ox → velSq (resolveOutsideWindow w n) < velSq n) := by
  have hvy := mul_self_nonneg (n.y - n.oy)
  have hvx := mul_self_nonneg (n.x - n.ox)
  unfold resolveOutsideWindow velSq
  dsimp only
  split_ifs with hg hT hB hL
  · refine ⟨le_refl _, fun hin _ _ => absurd hin ?_, fun hin _ _ => absurd hin ?_⟩ <;>
      · rintro ⟨a, b, c, d⟩
        unfold strictlyInside at *
        rcases hg with h | h | h | h <;> linarith [a, b, c, d]
  · unfold BOUNCE_DECAY
    refine ⟨by dsimp only; nlinarith, fun _ _ hv => ?_, fun _ hnc _ => absurd (Or.inl hT) hnc⟩
    have h2 : 0 < (n.y - n.oy) * (n.y - n.oy) :=
      mul_self_pos.mpr (sub_ne_zero.mpr hv)
    dsimp only
    nlinarith
  · unfold BOUNCE_DECAY
    refine ⟨by dsimp only; nlinarith, fun _ _ hv => ?_, fun _ hnc _ => absurd (Or.inr hB) hnc⟩
    have h2 : 0 < (n.y - n.oy) * (n.y - n.oy) :=
      mul_self_pos.mpr (sub_ne_zero.mpr hv)
    dsimp only
    nlinarith
  · unfold BOUNCE_DECAY
    refine ⟨by dsimp only; nlinarith, fun _ hc _ => ?_, fun _ _ hv => ?_⟩
    · rcases hc with hc | hc <;> contradiction
    · have h2 : 0 < (n.x - n.ox) * (n.x - n.ox) :=
        mul_self_pos.mpr (sub_ne_zero.mpr hv)
      dsimp only
      nlinarith
  · unfold BOUNCE_DECAY
    refine ⟨by dsimp only; nlinarith, fun _ hc _ => ?_, fun _ _ hv => ?_⟩
    · rcases hc with hc | hc <;> contradiction
    · have h2 : 0 < (n.x - n.ox) * (n.x - n.ox) :=
        mul_self_pos.mpr (sub_ne_zero.mpr hv)
      dsimp only
      nlinarith

/-- C6 counterexample node: driven past the left face with zero normal
velocity but nonzero tangential velocity (0, 5). -/
def c6Node : BlobNode := ⟨-10, 500, -10, 495⟩

/-- C6 witness node: driven past the left face with normal velocity -1. -/
def c6wNode : BlobNode := ⟨-5, 3, -4, 3⟩

/-- Claim C6 counterexample: a node displaced back onto the left face of
the monitor bounds with nonzero incoming speed (tangential 5, normal 0)
keeps its implicit speed exactly — the post-bounce speed is not strictly
smaller, refuting the claim as frozen. -/
theorem C6_bounce_decay_counterexample :
    c6Node.x < 0 ∧ velSq c6Node ≠ 0 ∧
    ¬ velSq (clampNodeRect 0 1000 0 1000 c6Node) < velSq c6Node := by
  norm_num [velSq, clampNodeRect, clampNodeX, clampNodeY, BOUNCE_DECAY, c6Node]

/-- Claim C6 (amended): whenever the monitor-bounds resolver (shared with
the centroid-inside window mode) or the centroid-outside window resolver
displaces a node back onto a face, the post-bounce implicit speed is at
most the pre-bounce speed, and strictly less whenever the velocity
component normal to the displaced face is nonzero (the bounce-decay factor
being 3/10 < 1); speed is conserved exactly when the normal component
vanishes. -/
theorem C6_bounce_decay :
    (∀ (left right top bottom : ℚ) (n : BlobNode), left ≤ right → top ≤ bottom →
      velSq (clampNodeRect left right top bottom n) ≤ velSq n ∧
      ((n.x < left ∨ right < n.x) → n.x ≠ n.ox →
        velSq (clampNodeRect left right top bottom n) < velSq n) ∧
      ((n.y < top ∨ bottom < n.y) → n.y ≠ n.oy →
        velSq (clampNodeRect left right top bottom n) < velSq n)) ∧
    (∀ (w : WindowRect) (n : BlobNode),
      velSq (resolveOutsideWindow w n) ≤ velSq n ∧
      (strictlyInside w n →
        (min (min (n.x - w.x) (w.x + w.width - n.x))
            (min (n.y - w.y) (w.y + w.height - n.y)) = n.y - w.y ∨
          min (min (n.x - w.x) (w.x + w.width - n.x))
            (min (n.y - w.y) (w.y + w.height - n.y)) = w.y + w.height - n.y) →
        n.y ≠ n.oy → velSq (resolveOutsideWindow w n) < velSq n) ∧
      (strictlyInside w n →
        ¬ (min (min (n.x - w.x) (w.x + w.width - n.x))
            (min (n.y - w.y) (w.y + w.height - n.y)) = n.y - w.y ∨
          min (min (n.x - w.x) (w.x + w.width - n.x))
            (min (n.y - w.y) (w.y + w.height - n.y)) = w.y + w.height - n.y) →
        n.x ≠ n.ox → velSq (resolveOutsideWindow w n) < velSq n)) :=
  ⟨fun left right top bottom n hx hy =>
    clampNodeRect_velsq left right top bottom n hx hy,
   fun w n => resolveOutsideWindow_velsq w n⟩

/-- Witness for the amended C6: a node past the left face with nonzero
normal velocity strictly loses speed. -/
theorem C6_bounce_decay_witness :
    velSq (clampNodeRect 0 10 0 10 c6wNode) < velSq c6wNode :=
  (C6_bounce_decay.1 0 10 0 10 c6wNode (by norm_num) (by norm_num)).2.1
    (Or.inl (by norm_num [c6wNode])) (by norm_num [c6wNode])

-- ── C2: outside-mode window snap matches the spec's description ──────────

/-- Spec-side description of the centroid-outside snap, written from the
spec's words for the refinement claim C2: a node strictly inside the
rectangle is placed on the face at minimum edge distance — ties resolved
in the checked order top, bottom, left, right — ending on the boundary,
with the velocity component normal to that face reflected and scaled by
the bounce-decay factor. -/
def specSnapOutside (w : WindowRect) (n : BlobNode) : BlobNode :=
  let dL := n.x - w.x
  let dR := w.x + w.width - n.x
  let dT := n.y - w.y
  let dB := w.y + w.height - n.y
  if dT ≤ dL ∧ dT ≤ dR ∧ dT ≤ dB then
    { n with y := w.y, oy := w.y + (n.y - n.oy) * BOUNCE_DECAY }
  else if dB ≤ dL ∧ dB ≤ dR then
    { n with y := w.y + w.height,
             oy := w.y + w.height + (n.y - n.oy) * BOUNCE_DECAY }
  else if dL ≤ dR then
    { n with x := w.x, ox := w.x + (n.x - n.ox) * BOUNCE_DECAY }
  else
    { n with x := w.x + w.width,
             ox := w.x + w.width + (n.x - n.ox) * BOUNCE_DECAY }

/-- The source resolver coincides with the spec-side snap description on
every node strictly inside the window. -/
lemma resolveOutsideWindow_eq_spec (w : WindowRect) (n : BlobNode)
    (h : strictlyInside w n) :
    resolveOutsideWindow w n = specSnapOutside w n := by
  obtain ⟨h1, h2, h3, h4⟩ := h
  have hguard : ¬ (n.x ≤ w.x ∨ n.x ≥ w.x + w.width ∨ n.y ≤ w.y ∨
      n.y ≥ w.y + w.height) := by
    push_neg
    exact ⟨by linarith, by linarith, by linarith, by linarith⟩
  unfold resolveOutsideWindow specSnapOutside
  dsimp only
  rw [if_neg hguard]
  set dL := n.x - w.x with hdL
  set dR := w.x + w.width - n.x with hdR
  set dT := n.y - w.y with hdT
  set dB := w.y + w.height - n.y with hdB
  by_cases cT : dT ≤ dL ∧ dT ≤ dR ∧ dT ≤ dB
  · rw [if_pos cT,
      if_pos (le_antisymm ((min_le_right (min dL dR) (min dT dB)).trans
          (min_le_left dT dB))
        (le_min (le_min cT.1 cT.2.1) (le_min le_rfl cT.2.2)))]
  · have hnT : ¬ (min (min dL dR) (min dT dB) = dT) := by
      intro he
      refine cT ⟨?_, ?_, ?_⟩
      · have hh := (min_le_left (min dL dR) (min dT dB)).trans
          (min_le_left dL dR)
        rwa [he] at hh
      · have hh := (min_le_left (min dL dR) (min dT dB)).trans
          (min_le_right dL dR)
        rwa [he] at hh
      · have hh := (min_le_right (min dL dR) (min dT dB)).trans
          (min_le_right dT dB)
        rwa [he] at hh
    rw [if_neg cT, if_neg hnT]
    by_cases cB : dB ≤ dL ∧ dB ≤ dR
    · have hBT : dB ≤ dT := by
        by_contra hc
        push_neg at hc
        exact cT ⟨by linarith [cB.1], by linarith [cB.2], by linarith⟩
      rw [if_pos cB,
        if_pos (le_antisymm ((min_le_right (min dL dR) (min dT dB)).trans
            (min_le_right dT dB))
          (le_min (le_min cB.1 cB.2) (le_min hBT le_rfl)))]
    · have hnB : ¬ (min (min dL dR) (min dT dB) = dB) := by
        intro he
        refine cB ⟨?_, ?_⟩
        · have hh := (min_le_left (min dL dR) (min dT dB)).trans
            (min_le_left dL dR)
          rwa [he] at hh
        · have hh := (min_le_left (min dL dR) (min dT dB)).trans
            (min_le_right dL dR)
          rwa [he] at hh
      rw [if_neg cB, if_neg hnB]
      by_cases cL : dL ≤ dR
      · have hLT : dL ≤ dT := by
          by_contra hc
          push_neg at hc
          rcases le_total dT dB with hh | hh
          · exact cT ⟨hc.le, hc.le.trans cL, hh⟩
          · exact cB ⟨hh.trans hc.le, hh.trans (hc.le.trans cL)⟩
        have hLB : dL ≤ dB := by
          by_contra hc
          push_neg at hc
          exact cB ⟨hc.le, hc.le.trans cL⟩
        rw [if_pos cL,
          if_pos (le_antisymm ((min_le_left (min dL dR) (min dT dB)).trans
              (min_le_left dL dR))
            (le_min (le_min le_rfl cL) (le_min hLT hLB)))]
      · have hnL : ¬ (min (min dL dR) (min dT dB) = dL) := by
          intro he
          refine cL ?_
          have hh := (min_le_left (min dL dR) (min dT dB)).trans
            (min_le_right dL dR)
          rwa [he] at hh
        rw [if_neg cL, if_neg hnL]

/-- C2 witness configuration: the spec scenario — centroid (500, 500)
outside window rect (400, 400, 100, 100), one node (450, 460) strictly
inside, nearest face the bottom (distance 40). -/
def c2State : BlobState :=
  { baseState with
    nodes := [⟨450, 460, 450, 455⟩]
    cx := 500
    cy := 500
    windows := [⟨400, 400, 100, 100⟩] }

/-- Claim C2: in constrainWindowWalls, for a window rectangle whose
interior does not contain the centroid, every node strictly inside the
rectangle is snapped onto the nearest of the four faces — minimum edge
distance, ties in the checked order top, bottom, left, right — ending on
the boundary with the normal velocity reflected and scaled by the
bounce-decay factor, i.e. exactly the spec-side snap (specSnapOutside). -/
theorem C2_window_exclusion_snap (s : BlobState) (w : WindowRect)
    (hw : s.windows = [w]) (hc : ¬ centroidInsideWindow s w) :
    List.Forall₂
      (fun n n' : BlobNode =>
        strictlyInside w n → n' = specSnapOutside w n)
      s.nodes (constrainWindowWalls s).nodes := by
  unfold centroidInsideWindow at hc
  unfold constrainWindowWalls
  rw [hw]
  dsimp only
  rw [List.foldl_cons, List.foldl_nil, if_neg hc, List.forall₂_map_right_iff]
  exact List.forall₂_same.2
    (fun n _ hin => resolveOutsideWindow_eq_spec w n hin)

/-- Witness for C2: the spec's window-exclusion scenario. -/
theorem C2_window_exclusion_snap_witness :
    List.Forall₂
      (fun n n' : BlobNode =>
        strictlyInside ⟨400, 400, 100, 100⟩ n →
          n' = specSnapOutside ⟨400, 400, 100, 100⟩ n)
      c2State.nodes (constrainWindowWalls c2State).nodes :=
  C2_window_exclusion_snap c2State ⟨400, 400, 100, 100⟩ rfl
    (by norm_num [centroidInsideWindow, c2State, baseState])

-- ── C4: walking corner transition top → right ────────────────────────────

/-- Walking rightward along the top edge past the right extent minus the
radius: the transition table sets walkEdge := right and walkDir := -1. -/
lemma applyWalkForces_top_right (env : Env) (s : BlobState) (dt : ℚ)
    (w : WindowRect) (hwin : nearestWindow s = some w)
    (hedge : s.walkEdge = .top)
    (hnoleft : ¬ (updateCentroid (shiftNodesX s (s.walkSpeed * s.walkDir * dt))).cx
      < w.x + (updateCentroid (shiftNodesX s (s.walkSpeed * s.walkDir * dt))).radius)
    (hright : (updateCentroid (shiftNodesX s (s.walkSpeed * s.walkDir * dt))).cx
      > w.x + w.width
        - (updateCentroid (shiftNodesX s (s.walkSpeed * s.walkDir * dt))).radius) :
    applyWalkForces env s dt =
      { updateCentroid (shiftNodesX s (s.walkSpeed * s.walkDir * dt)) with
        walkEdge := .right
        walkDir := -1
        moveState := if env.rand 0 < 2/1000 then .IDLE else s.moveState } := by
  unfold applyWalkForces
  rw [hwin]
  dsimp only
  rw [hedge]
  dsimp only
  rw [if_neg hnoleft, if_pos hright]
  by_cases hr : env.rand 0 < 2/1000
  · rw [if_pos hr, if_pos hr]
    norm_num
  · rw [if_neg hr, if_neg hr]
    norm_num

/-- Claim C4 counterexample: walking rightward (walkDir = 1) along the top
edge, the centroid passes the right extent minus the radius and the edge
becomes right — as claimed — but the subsequent walking motion DECREASES y
(moves upward): the claim's "proceeds downward (increasing y)" is false. -/
theorem C4_walk_corner_counterexample :
    (applyWalkForces envC c4State (1/20)).walkEdge = .right ∧
    ((applyWalkForces envC (applyWalkForces envC c4State (1/20)) (1/20)).nodes.getD
        0 default).y <
      ((applyWalkForces envC c4State (1/20)).nodes.getD 0 default).y := by
  constructor <;>
    norm_num [applyWalkForces, nearestWindow, rectDistSq, updateCentroid,
      shiftNodesX, shiftNodesY, c4State, baseState, w100, envC, tableSqrt,
      sqrtTable, ringSprings, NODE_COUNT,
      List.replicate, List.getD, List.range, List.find?, List.foldl, List.set]

/-- Claim C4 (amended): in the Walking state with positive (rightward)
direction along the top edge, when the centroid passes the window's right
extent minus the body radius the walk edge becomes right and walkDir
becomes -1, so the subsequent walking motion proceeds upward — every
node's y decreases by walkSpeed * dt on the next walking step (the code's
transition table moves the body up the right edge, not down). -/
theorem C4_walk_corner_amended (env env2 : Env) (s : BlobState) (dt dt2 : ℚ)
    (w : WindowRect) (hwin : nearestWindow s = some w)
    (hedge : s.walkEdge = .top) (hdir : 0 < s.walkDir)
    (hnoleft : ¬ (updateCentroid (shiftNodesX s (s.walkSpeed * s.walkDir * dt))).cx
      < w.x + (updateCentroid (shiftNodesX s (s.walkSpeed * s.walkDir * dt))).radius)
    (hright : (updateCentroid (shiftNodesX s (s.walkSpeed * s.walkDir * dt))).cx
      > w.x + w.width
        - (updateCentroid (shiftNodesX s (s.walkSpeed * s.walkDir * dt))).radius) :
    (applyWalkForces env s dt).walkEdge = .right ∧
    (applyWalkForces env s dt).walkDir = -1 ∧
    (applyWalkForces env2 (applyWalkForces env s dt) dt2).nodes =
      (applyWalkForces env s dt).nodes.map
        (fun n => { n with
          y := n.y - s.walkSpeed * dt2
          oy := n.oy - s.walkSpeed * dt2 }) := by
  have hkey := applyWalkForces_top_right env s dt w hwin hedge hnoleft hright
  have hswin : s.windows ≠ [] := by
    intro h0
    rw [nearestWindow_nil h0] at hwin
    cases hwin
  refine ⟨by rw [hkey], by rw [hkey], ?_⟩
  rw [hkey]
  have hwinX : ({ updateCentroid (shiftNodesX s (s.walkSpeed * s.walkDir * dt)) with
      walkEdge := WalkEdge.right
      walkDir := -1
      moveState := if env.rand 0 < 2/1000 then MoveState.IDLE else s.moveState }
        : BlobState).windows ≠ [] := by
    simpa using hswin
  obtain ⟨w2, hw2, _⟩ := nearestWindow_isSome hwinX
  have hmap : ∀ ns : List BlobNode, ns.map
      (fun n => { n with
        y := n.y + (updateCentroid
          (shiftNodesX s (s.walkSpeed * s.walkDir * dt))).walkSpeed * -1 * dt2
        oy := n.oy + (updateCentroid
          (shiftNodesX s (s.walkSpeed * s.walkDir * dt))).walkSpeed * -1 * dt2 }) =
      ns.map
        (fun n => { n with
          y := n.y - s.walkSpeed * dt2
          oy := n.oy - s.walkSpeed * dt2 }) := by
    intro ns
    apply List.map_congr_left
    intro n _
    have hws : (updateCentroid
        (shiftNodesX s (s.walkSpeed * s.walkDir * dt))).walkSpeed
        = s.walkSpeed := by simp
    rw [hws]
    cases n
    dsimp only
    norm_num [BlobNode.mk.injEq]
    constructor <;> ring
  unfold applyWalkForces
  rw [hw2]
  dsimp only
  split_ifs <;>
    · simp only [nodes_updateCentroid]
      unfold shiftNodesY
      dsimp only
      rw [hmap]

/-- Witness for the amended C4: the concrete corner-crossing walk. -/
theorem C4_walk_corner_amended_witness :
    (applyWalkForces envC c4State (1/20)).walkEdge = .right ∧
    (applyWalkForces envC c4State (1/20)).walkDir = -1 ∧
    (applyWalkForces envC (applyWalkForces envC c4State (1/20)) (1/20)).nodes =
      (applyWalkForces envC c4State (1/20)).nodes.map
        (fun n => { n with
          y := n.y - c4State.walkSpeed * (1/20)
          oy := n.oy - c4State.walkSpeed * (1/20) }) :=
  C4_walk_corner_amended envC envC c4State (1/20) (1/20) w100
    (by norm_num [nearestWindow, rectDistSq, c4State, baseState, w100,
      List.foldl])
    rfl
    (by norm_num [c4State, baseState])
    (by norm_num [updateCentroid, shiftNodesX, c4State, baseState, w100,
      NODE_COUNT, List.replicate, List.foldl, List.map])
    (by norm_num [updateCentroid, shiftNodesX, c4State, baseState, w100,
      NODE_COUNT, List.replicate, List.foldl, List.map])
